import Mathlib

/-!
Verification of the gcx release-automation CLI (build / archive / publish /
deploy pipeline).  The definitions below are a shallow embedding of the Go
source in src/unnamed/part_001: Go strings are modelled as Lean strings
(lists of characters where splitting is analysed), fallible Go functions
returning error are modelled as Except String, and the external
collaborators (remote shell, object storage, notification dispatcher,
filesystem) are modelled as explicit oracle parameters so that the pure
control flow of the source can be proved about.
-/

set_option maxHeartbeats 1000000

namespace Gcx

/-- Mirrors BuildConfig (part_001 lines 57-67). -/
structure BuildConfig where
  Main : String
  OutputName : String
  DisablePlatformSuffix : Bool
  Goos : List String
  Goarch : List String
  Goarm : List String
  Flags : List String
  Ldflags : List String
  Env : List String
deriving Repr, DecidableEq

/-- Mirrors ArchiveTemplateData (part_001 lines 75-80). -/
structure ArchiveTemplateData where
  Binary : String
  Version : String
  Os : String
  Arch : String
deriving Repr, DecidableEq

/-- Mirrors getOutputFilename (part_001 lines 412-427): the resolved output
path for one build job.  The Go fmt.Sprintf calls are written out as string
appends. -/
def getOutputFilename (usePlatformSuffix : Bool)
    (outDir binaryBase version goos goarch goarm : String) : String :=
  if usePlatformSuffix then
    if goarch = "arm" ∧ goarm ≠ "" then
      outDir ++ "/" ++ binaryBase ++ "_" ++ version ++ "_" ++ goos ++ "_" ++
        goarch ++ "_" ++ goarm ++ "/" ++ binaryBase
    else
      outDir ++ "/" ++ binaryBase ++ "_" ++ version ++ "_" ++ goos ++ "_" ++
        goarch ++ "/" ++ binaryBase
  else
    outDir ++ "/" ++ binaryBase ++ "_" ++ version ++ "/" ++ binaryBase

/-- One fully resolved compile invocation produced by expanding a
BuildConfig (the loop body of buildBinaries, part_001 lines 532-588). -/
structure BuildJob where
  Goos : String
  Goarch : String
  Goarm : String
  OutputName : String
deriving Repr, DecidableEq

/-- The binary base name (part_001 lines 486-493): the explicit OutputName
when set, otherwise the last slash-separated component of Main.  Go
strings.Split with the one-character separator is modelled as List.splitOn
on the character data. -/
def binaryBaseOf (cfg : BuildConfig) : String :=
  if cfg.OutputName ≠ "" then cfg.OutputName
  else ((cfg.Main.data.splitOn '/').map String.mk).getLastD ""

/-- The set of build jobs emitted for one BuildConfig: the nested goos, then
goarch loops of buildBinaries (part_001 lines 532-588).  The goroutine per
goos only parallelises the work; the collection of jobs it issues is this
flatMap.  An arm goarch with a non-linux goos is skipped; an arm goarch
with a nonempty Goarm list emits one job per variant. -/
def expandBuildJobs (cfg : BuildConfig) (outDir currentTag : String) : List BuildJob :=
  let binaryBase := binaryBaseOf cfg
  let usePlatformSuffix := !cfg.DisablePlatformSuffix
  cfg.Goos.flatMap (fun goos =>
    cfg.Goarch.flatMap (fun goarch =>
      if goarch = "arm" ∧ goos ≠ "linux" then []
      else if goarch = "arm" ∧ cfg.Goarm ≠ [] then
        cfg.Goarm.map (fun goarm =>
          { Goos := goos, Goarch := goarch, Goarm := goarm,
            OutputName := getOutputFilename usePlatformSuffix outDir binaryBase
              currentTag goos goarch goarm })
      else
        [{ Goos := goos, Goarch := goarch, Goarm := "",
           OutputName := getOutputFilename usePlatformSuffix outDir binaryBase
             currentTag goos goarch "" }]))

/-- The filename parse at the head of the archive loop (part_001 lines
860-876): split the directory entry name on the underscore delimiter,
require at least four fields, and read binary, version, os, arch
positionally.  Go strings.Split with a one-character separator is modelled
as List.splitOn on the character data. -/
def parseArchiveEntry (fileName : String) : Option ArchiveTemplateData :=
  let parts := (fileName.data.splitOn '_').map String.mk
  if parts.length < 4 then none
  else some { Binary := parts.getD 0 "", Version := parts.getD 1 "",
              Os := parts.getD 2 "", Arch := parts.getD 3 "" }

/-- The directory entry name that a build job creates under the output
directory: the middle path component of getOutputFilename. -/
def buildEntryName (usePlatformSuffix : Bool)
    (binaryBase version goos goarch goarm : String) : String :=
  if usePlatformSuffix then
    if goarch = "arm" ∧ goarm ≠ "" then
      binaryBase ++ "_" ++ version ++ "_" ++ goos ++ "_" ++ goarch ++ "_" ++ goarm
    else
      binaryBase ++ "_" ++ version ++ "_" ++ goos ++ "_" ++ goarch
  else
    binaryBase ++ "_" ++ version

/-- Sanity: the resolved output path is the output directory, then the
entry name, then the binary base name. -/
theorem getOutputFilename_eq_entry (u : Bool) (o b v g a m : String) :
    getOutputFilename u o b v g a m = o ++ "/" ++ buildEntryName u b v g a m ++ "/" ++ b := by
  unfold getOutputFilename buildEntryName
  split
  · split <;> simp [String.append_assoc]
  · simp [String.append_assoc]

/-- A list with no underscore followed by an underscore determines itself:
the first underscore of the concatenation marks its end. -/
theorem underscore_head_inj {g1 g2 t1 t2 : List Char}
    (h1 : '_' ∉ g1) (h2 : '_' ∉ g2)
    (h : g1 ++ '_' :: t1 = g2 ++ '_' :: t2) : g1 = g2 := by
  induction g1 generalizing g2 with
  | nil =>
    cases g2 with
    | nil => rfl
    | cons d g2t =>
      simp only [List.nil_append, List.cons_append, List.cons.injEq] at h
      exact absurd (h.1 ▸ List.mem_cons_self d g2t) h2
  | cons c g1t ih =>
    cases g2 with
    | nil =>
      simp only [List.nil_append, List.cons_append, List.cons.injEq] at h
      exact absurd (h.1 ▸ List.mem_cons_self c g1t) h1
    | cons d g2t =>
      simp only [List.cons_append, List.cons.injEq] at h
      have := ih (fun hm => h1 (List.mem_cons_of_mem c hm))
        (fun hm => h2 (List.mem_cons_of_mem d hm)) h.2
      rw [h.1, this]

/-- With the platform suffix on, the entry name is the binary base, the
version and the goos value, each closed by an underscore delimiter. -/
theorem buildEntryName_data (b v g a m : String) :
    ∃ t, (buildEntryName true b v g a m).data =
      b.data ++ '_' :: (v.data ++ '_' :: (g.data ++ '_' :: t)) := by
  unfold buildEntryName
  by_cases h : a = "arm" ∧ m ≠ ""
  · exact ⟨a.data ++ '_' :: m.data, by
      simp [h, String.data_append, List.append_assoc]⟩
  · exact ⟨a.data, by simp [h, String.data_append, List.append_assoc]⟩

/-- C3: with the platform suffix enabled, two build jobs of one BuildConfig
that differ in goos resolve to distinct output paths (goos values being
underscore-free platform names); with the suffix disabled, two jobs that
differ only in goos resolve to the identical path, the documented
collision. -/
theorem platform_suffix_path_disjointness
    (o b v g1 a1 m1 g2 a2 m2 a m : String)
    (hg1 : '_' ∉ g1.data) (hg2 : '_' ∉ g2.data) (hne : g1 ≠ g2) :
    getOutputFilename true o b v g1 a1 m1 ≠ getOutputFilename true o b v g2 a2 m2 ∧
    getOutputFilename false o b v g1 a m = getOutputFilename false o b v g2 a m := by
  constructor
  · intro h
    apply hne
    obtain ⟨t1, e1⟩ := buildEntryName_data b v g1 a1 m1
    obtain ⟨t2, e2⟩ := buildEntryName_data b v g2 a2 m2
    have h2 : (getOutputFilename true o b v g1 a1 m1).data
        = (getOutputFilename true o b v g2 a2 m2).data := by rw [h]
    rw [getOutputFilename_eq_entry, getOutputFilename_eq_entry] at h2
    simp only [String.data_append, e1, e2, List.append_assoc, List.cons_append] at h2
    have h3 := List.append_cancel_left h2
    simp only [List.cons_append, List.nil_append, List.cons.injEq, true_and] at h3
    have h4 := List.append_cancel_left h3
    simp only [List.cons.injEq, true_and] at h4
    have h5 := List.append_cancel_left h4
    simp only [List.cons.injEq, true_and] at h5
    exact String.ext (underscore_head_inj hg1 hg2 h5)
  · rfl

/-- Witness for platform_suffix_path_disjointness at linux versus darwin. -/
theorem platform_suffix_path_disjointness_witness :
    getOutputFilename true "dist" "app" "v1" "linux" "amd64" "" ≠
      getOutputFilename true "dist" "app" "v1" "darwin" "amd64" "" ∧
    getOutputFilename false "dist" "app" "v1" "linux" "arm" "6" =
      getOutputFilename false "dist" "app" "v1" "darwin" "arm" "6" :=
  platform_suffix_path_disjointness "dist" "app" "v1" "linux" "amd64" ""
    "darwin" "amd64" "" "arm" "6" (by decide) (by decide) (by decide)

/-- C6 counterexample: a build job emitted for a BuildConfig with the
platform suffix disabled resolves to dist/myapp_v1/myapp, whose entry name
under the output directory is myapp_v1; that name splits into only two
underscore fields, so the archive filename parser does not match it.  This
refutes the claim for every build job. -/
theorem archive_roundtrip_counterexample :
    expandBuildJobs
        { Main := "./cmd/myapp", OutputName := "", DisablePlatformSuffix := true,
          Goos := ["linux"], Goarch := ["amd64"], Goarm := [],
          Flags := [], Ldflags := [], Env := [] } "dist" "v1" =
      [{ Goos := "linux", Goarch := "amd64", Goarm := "",
         OutputName := "dist" ++ "/" ++ buildEntryName false "myapp" "v1" "linux" "amd64" "" ++ "/" ++ "myapp" }] ∧
    parseArchiveEntry (buildEntryName false "myapp" "v1" "linux" "amd64" "") = none := by
  constructor
  · rfl
  · rfl

/-- C6 amended: for a build job with the platform suffix enabled whose
binary base, version, goos, goarch and goarm fields are underscore-free,
the resolved output path is the output directory followed by the entry
name, and the archive filename parser matches that entry name and parses
it back to the same binary, version, os and arch. -/
theorem archive_roundtrip (b v g a m : String)
    (hb : '_' ∉ b.data) (hv : '_' ∉ v.data) (hg : '_' ∉ g.data)
    (ha : '_' ∉ a.data) (hm : '_' ∉ m.data) :
    (∀ o, getOutputFilename true o b v g a m =
        o ++ "/" ++ buildEntryName true b v g a m ++ "/" ++ b) ∧
    parseArchiveEntry (buildEntryName true b v g a m) =
      some { Binary := b, Version := v, Os := g, Arch := a } := by
  refine ⟨fun o => getOutputFilename_eq_entry true o b v g a m, ?_⟩
  unfold buildEntryName parseArchiveEntry
  by_cases h : a = "arm" ∧ m ≠ ""
  · rw [if_pos h]
    have hdata : (b ++ "_" ++ v ++ "_" ++ g ++ "_" ++ a ++ "_" ++ m).data
        = List.intercalate ['_'] [b.data, v.data, g.data, a.data, m.data] := by
      simp [List.intercalate, List.intersperse, String.data_append, List.append_assoc]
    rw [if_pos rfl, hdata, List.splitOn_intercalate]
    · rfl
    · intro l hl
      simp only [List.mem_cons, List.not_mem_nil, or_false] at hl
      rcases hl with h | h | h | h | h <;> subst h <;> assumption
    · simp
  · rw [if_neg h]
    have hdata : (b ++ "_" ++ v ++ "_" ++ g ++ "_" ++ a).data
        = List.intercalate ['_'] [b.data, v.data, g.data, a.data] := by
      simp [List.intercalate, List.intersperse, String.data_append, List.append_assoc]
    rw [if_pos rfl, hdata, List.splitOn_intercalate]
    · rfl
    · intro l hl
      simp only [List.mem_cons, List.not_mem_nil, or_false] at hl
      rcases hl with h | h | h | h <;> subst h <;> assumption
    · simp

/-- Witness for archive_roundtrip at a concrete arm job. -/
theorem archive_roundtrip_witness :
    (∀ o, getOutputFilename true o "myapp" "v1" "linux" "arm" "7" =
        o ++ "/" ++ buildEntryName true "myapp" "v1" "linux" "arm" "7" ++ "/" ++ "myapp") ∧
    parseArchiveEntry (buildEntryName true "myapp" "v1" "linux" "arm" "7") =
      some { Binary := "myapp", Version := "v1", Os := "linux", Arch := "arm" } :=
  archive_roundtrip "myapp" "v1" "linux" "arm" "7"
    (by decide) (by decide) (by decide) (by decide) (by decide)

/-- C7: the expansion skips an arm goarch paired with a non-linux goos, so
every emitted job with goarch arm has goos linux; and the example
configuration with Goos darwin, Goarch arm yields no jobs at all. -/
theorem arm_non_linux_skipped (cfg : BuildConfig) (outDir tag : String) :
    (∀ job ∈ expandBuildJobs cfg outDir tag, job.Goarch = "arm" → job.Goos = "linux") ∧
    expandBuildJobs
        { Main := "./cmd/myapp", OutputName := "", DisablePlatformSuffix := false,
          Goos := ["darwin"], Goarch := ["arm"], Goarm := [],
          Flags := [], Ldflags := [], Env := [] } "dist" "v1" = [] := by
  constructor
  · intro job hjob harm
    simp only [expandBuildJobs, List.mem_flatMap] at hjob
    obtain ⟨goos, hgoos, goarch, hgoarch, hjob⟩ := hjob
    by_cases hskip : goarch = "arm" ∧ goos ≠ "linux"
    · rw [if_pos hskip] at hjob
      exact absurd hjob (List.not_mem_nil job)
    · rw [if_neg hskip] at hjob
      by_cases hvar : goarch = "arm" ∧ cfg.Goarm ≠ []
      · rw [if_pos hvar] at hjob
        simp only [List.mem_map] at hjob
        obtain ⟨goarm, _, hjob⟩ := hjob
        subst hjob
        simp only at harm
        subst harm
        push_neg at hskip
        exact hskip rfl
      · rw [if_neg hvar] at hjob
        simp only [List.mem_singleton] at hjob
        subst hjob
        simp only at harm
        subst harm
        push_neg at hskip
        exact hskip rfl
  · rfl

/-- Witness for arm_non_linux_skipped: in a Goos linux and windows, Goarch
arm matrix, the single emitted arm job targets linux. -/
theorem arm_non_linux_skipped_witness :
    ({ Goos := "linux", Goarch := "arm", Goarm := "",
       OutputName := getOutputFilename true "dist" "myapp" "v1" "linux" "arm" "" } : BuildJob).Goos
      = "linux" :=
  (arm_non_linux_skipped
      { Main := "./cmd/myapp", OutputName := "", DisablePlatformSuffix := false,
        Goos := ["windows", "linux"], Goarch := ["arm"], Goarm := [],
        Flags := [], Ldflags := [], Env := [] } "dist" "v1").1
    _ (by decide) rfl

/-- A value in a rendering context, mirroring the Go values the repository
hands to template execution: strings, string maps (the Env submap of the
ldflags context, and the whole publish directory context), and structs.
The novalue constructor marks the result of a missing map key lookup. -/
inductive GoValue where
  | str (s : String)
  | strMap (entries : List (String × String))
  | strukt (fields : List (String × GoValue))
  | novalue

/-- A parsed template: literal text and field actions with a dotted path,
the fragment of the template language the repository uses for ldflags,
archive names and publish directories. -/
inductive TmplNode where
  | lit (s : String)
  | field (path : List String)
deriving Repr, DecidableEq

/-- Modelled from the spec: the Template Engine is the Go text/template
collaborator, whose implementation is not part of this repository; this
models its documented field evaluation at the call sites of part_001:
a field absent from a struct is an execution error, while a key absent
from a map is not an error and evaluates to the invalid value, which
prints as <no value> under the default missingkey option. -/
def resolveField : GoValue → String → Except String GoValue
  | .strukt fields, name =>
    match fields.lookup name with
    | some v => .ok v
    | none => .error ("cant evaluate field " ++ name)
  | .strMap entries, name =>
    match entries.lookup name with
    | some s => .ok (.str s)
    | none => .ok .novalue
  | _, name => .error ("cant evaluate field " ++ name)

/-- Resolve a dotted field path from the context root. -/
def resolvePath (v : GoValue) : List String → Except String GoValue
  | [] => .ok v
  | f :: rest =>
    match resolveField v f with
    | .error e => .error e
    | .ok v2 => resolvePath v2 rest

/-- How a resolved value prints into the output text; the invalid value
prints as <no value>. -/
def printGoValue : GoValue → String
  | .str s => s
  | .novalue => "<no value>"
  | .strMap _ => "map"
  | .strukt _ => "struct"

/-- Render one template node against the context. -/
def renderNode (ctx : GoValue) : TmplNode → Except String String
  | .lit s => .ok s
  | .field p =>
    match resolvePath ctx p with
    | .error e => .error e
    | .ok v => .ok (printGoValue v)

/-- Render a whole template left to right; the first node error aborts. -/
def renderTemplate (ctx : GoValue) : List TmplNode → Except String String
  | [] => .ok ""
  | n :: rest =>
    match renderNode ctx n with
    | .error e => .error e
    | .ok s =>
      match renderTemplate ctx rest with
      | .error e => .error e
      | .ok s2 => .ok (s ++ s2)

/-- The ldflags rendering context (part_001 lines 507-517): a struct with
Version, Commit, Date and an Env string map. -/
def ldflagsContext (version commit date : String) (env : List (String × String)) : GoValue :=
  .strukt [("Version", .str version), ("Commit", .str commit),
           ("Date", .str date), ("Env", .strMap env)]

/-- The archive name rendering context (part_001 lines 871-893): a struct
with Binary, Version, Os and Arch. -/
def archiveContext (d : ArchiveTemplateData) : GoValue :=
  .strukt [("Binary", .str d.Binary), ("Version", .str d.Version),
           ("Os", .str d.Os), ("Arch", .str d.Arch)]

/-- The publish directory rendering context (part_001 lines 621-623,
677-686): a Go map holding only the key Version. -/
def publishDirContext (version : String) : GoValue :=
  .strMap [("Version", version)]

/-- A template whose nodes include a field action that errors renders to
an error as a whole. -/
theorem renderTemplate_error_of_mem {ctx : GoValue} {t : List TmplNode} {n : TmplNode}
    (hmem : n ∈ t) (e : String) (herr : renderNode ctx n = .error e) :
    ∃ e2, renderTemplate ctx t = .error e2 := by
  induction t with
  | nil => exact absurd hmem (List.not_mem_nil n)
  | cons hd tl ih =>
    rcases List.mem_cons.mp hmem with h | h
    · subst h
      exact ⟨e, by simp [renderTemplate, herr]⟩
    · obtain ⟨e2, he2⟩ := ih h
      unfold renderTemplate
      rcases hh : renderNode ctx hd with e3 | s
      · exact ⟨e3, rfl⟩
      · exact ⟨e2, by simp [he2]⟩

/-- C4 counterexample: at the publish directory call site the context is a
Go map with the single key Version (part_001 lines 621-623, 677-686), and
rendering a template that references the absent field Foo does not fail:
it succeeds, substituting the placeholder <no value>. -/
theorem template_missing_map_key_counterexample :
    renderTemplate (publishDirContext "v1.0.0") [TmplNode.field ["Foo"]] =
      .ok "<no value>" := rfl

/-- C4 amended: at the struct-backed call sites (the ldflags context and
the archive name context are both structs) a template referencing a field
absent from the context schema fails with an error; at the map-backed
publish directory call site a reference to a key other than Version does
not fail: the render succeeds with the <no value> placeholder
substituted. -/
theorem template_missing_field (t : List TmplNode) (f : String) (rest : List String)
    (fields : List (String × GoValue)) (v : String)
    (hmem : TmplNode.field (f :: rest) ∈ t)
    (habs : fields.lookup f = none) :
    (∃ e, renderTemplate (.strukt fields) t = .error e) ∧
    (f ≠ "Version" →
      renderTemplate (publishDirContext v) [TmplNode.field [f]] = .ok "<no value>") := by
  constructor
  · apply renderTemplate_error_of_mem hmem ("cant evaluate field " ++ f)
    simp [renderNode, resolvePath, resolveField, habs]
  · intro hf
    have hbeq : (f == "Version") = false := beq_eq_false_iff_ne.mpr hf
    simp [renderTemplate, renderNode, resolvePath, resolveField, publishDirContext,
      List.lookup, hbeq, printGoValue]

/-- Witness for template_missing_field: the archive name schema rejects
the field Foo while the publish directory map accepts it as <no value>. -/
theorem template_missing_field_witness :
    (∃ e, renderTemplate
        (.strukt [("Binary", .str "app"), ("Version", .str "v1"),
                  ("Os", .str "linux"), ("Arch", .str "amd64")])
        [TmplNode.field ["Foo"]] = .error e) ∧
    ("Foo" ≠ "Version" →
      renderTemplate (publishDirContext "v1") [TmplNode.field ["Foo"]] = .ok "<no value>") :=
  template_missing_field [TmplNode.field ["Foo"]] "Foo" []
    [("Binary", .str "app"), ("Version", .str "v1"),
     ("Os", .str "linux"), ("Arch", .str "amd64")] "v1"
    (List.mem_singleton.mpr rfl) rfl

/-- Mirrors AlertConfig (part_001 lines 113-115). -/
structure AlertConfig where
  URLs : List String
deriving Repr, DecidableEq

/-- Mirrors AlertTemplateData (part_001 lines 118-123). -/
structure AlertTemplateData where
  AppName : String
  Version : String
  Status : String
  Error : String
deriving Repr, DecidableEq

/-- Mirrors DeployConfig (part_001 lines 98-110). -/
structure DeployConfig where
  Name : String
  Provider : String
  Server : String
  User : String
  KeyPath : String
  KeyRaw : String
  InsecureIgnoreHostKey : Bool
  Commands : List String
  Alerts : AlertConfig
deriving Repr, DecidableEq

/-- Mirrors SSHDeployConfig (part_001 lines 211-219). -/
structure SSHDeployConfig where
  Name : String
  Server : String
  User : String
  KeyPath : String
  KeyRaw : String
  InsecureIgnoreHostKey : Bool
  Commands : List String
deriving Repr, DecidableEq

/-- Mirrors DeployConfig.ToSSHDeployConfig (part_001 lines 154-167):
nil unless the provider is ssh. -/
def DeployConfig.ToSSHDeployConfig (c : DeployConfig) : Option SSHDeployConfig :=
  if c.Provider ≠ "ssh" then none
  else some { Name := c.Name, Server := c.Server, User := c.User,
              KeyPath := c.KeyPath, KeyRaw := c.KeyRaw,
              InsecureIgnoreHostKey := c.InsecureIgnoreHostKey,
              Commands := c.Commands }

/-- Mirrors SSHDeployConfig.Validate (part_001 lines 222-242): the first
violated requirement is the error. -/
def SSHDeployConfig.Validate (c : SSHDeployConfig) : Except String Unit :=
  if c.Name = "" then .error "name is required"
  else if c.Server = "" then .error "server is required"
  else if c.User = "" then .error "user is required"
  else if c.KeyPath = "" ∧ c.KeyRaw = "" then
    .error "either key_path or key_raw is required"
  else if c.KeyPath ≠ "" ∧ c.KeyRaw ≠ "" then
    .error "only one of key_path or key_raw should be provided"
  else if c.Commands = [] then .error "at least one command is required"
  else .ok ()

/-- Oracles for the external remote-shell collaborator and the trust-store
bootstrap used by executeSSHDeploy: each models the outcome of one
fallible external call.  keyFromPath folds the path expansion and the key
load of the KeyPath branch into one outcome; run returns the combined
output of one remote command or its error. -/
structure SSHEnv where
  checkKnownHost : String → Except String Unit
  rawKey : String → Except String Unit
  keyFromPath : String → Except String Unit
  connect : String → String → Except String Unit
  connectInsecure : String → String → Except String Unit
  run : String → Except String String

/-- The command loop of executeSSHDeploy (part_001 lines 1217-1224):
commands run strictly in order, the first failure aborts with its wrapped
error.  The second component is the list of commands actually passed to
the remote shell. -/
def runCommands (run : String → Except String String) :
    List String → Except String Unit × List String
  | [] => (.ok (), [])
  | c :: rest =>
    match run c with
    | .error e => (.error ("command \x27" ++ c ++ "\x27 failed: " ++ e), [c])
    | .ok _ =>
      let r := runCommands run rest
      (r.1, c :: r.2)

/-- Mirrors executeSSHDeploy (part_001 lines 1164-1227): validation, the
known-hosts bootstrap unless disabled, key loading, client creation, then
the command loop.  Returns the outcome and the executed command trace. -/
def executeSSHDeploy (env : SSHEnv) :
    Option SSHDeployConfig → Except String Unit × List String
  | none => (.error "ssh configuration is required for ssh provider", [])
  | some cfg =>
    match cfg.Validate with
    | .error e => (.error ("invalid SSH configuration: " ++ e), [])
    | .ok () =>
      let knownHost : Except String Unit :=
        if cfg.InsecureIgnoreHostKey then .ok ()
        else
          match env.checkKnownHost cfg.Server with
          | .error e => .error ("failed to check known_hosts file: " ++ e)
          | .ok () => .ok ()
      match knownHost with
      | .error e => (.error e, [])
      | .ok () =>
        let auth : Except String Unit :=
          if cfg.KeyRaw ≠ "" then
            match env.rawKey cfg.KeyRaw with
            | .error e => .error ("failed to load SSH key: " ++ e)
            | .ok () => .ok ()
          else
            match env.keyFromPath cfg.KeyPath with
            | .error e => .error ("failed to load SSH key: " ++ e)
            | .ok () => .ok ()
        match auth with
        | .error e => (.error e, [])
        | .ok () =>
          let conn : Except String Unit :=
            if cfg.InsecureIgnoreHostKey then
              match env.connectInsecure cfg.User cfg.Server with
              | .error e => .error ("failed to create insecure SSH client: " ++ e)
              | .ok () => .ok ()
            else
              match env.connect cfg.User cfg.Server with
              | .error e => .error ("failed to create SSH client: " ++ e)
              | .ok () => .ok ()
          match conn with
          | .error e => (.error e, [])
          | .ok () => runCommands env.run cfg.Commands

/-- Oracles for the notification collaborator: sender creation from the
URL list, and the fan-out send returning per-destination errors. -/
structure AlertEnv where
  createSender : List String → Except String Unit
  send : List String → String → List String

/-- The constant alert message template of sendAlert (part_001 lines
1087-1093) evaluated on the data: the conditional action includes the
error line exactly when Error is nonempty.  The template text is constant
and every referenced field exists, so parsing and execution never fail. -/
def renderAlertMessage (d : AlertTemplateData) : String :=
  "\nDeployment Status Update\nApplication: " ++ d.AppName ++
  "\nVersion: " ++ d.Version ++ "\nStatus: " ++ d.Status ++ "\n" ++
  (if d.Error ≠ "" then "Error: " ++ d.Error else "") ++ "\n"

/-- Mirrors sendAlert (part_001 lines 1081-1121).  Returns the outcome and
the messages handed to the notification collaborator: empty when no URLs
are configured or when sender creation fails, a single message once the
fan-out send is invoked. -/
def sendAlert (env : AlertEnv) (urls : List String) (d : AlertTemplateData) :
    Except String Unit × List String :=
  if urls = [] then (.ok (), [])
  else
    match env.createSender urls with
    | .error e => (.error ("failed to create alert sender: " ++ e), [])
    | .ok () =>
      let msg := renderAlertMessage d
      let errs := env.send urls msg
      (if errs = [] then .ok () else .error "failed to send alerts", [msg])

/-- The observable outcome of one executeDeploy run: the returned result,
the payloads passed to sendAlert, the messages handed to the notification
collaborator, and the commands executed on the remote host. -/
structure DeployOutcome where
  result : Except String Unit
  alertCalls : List AlertTemplateData
  dispatched : List String
  cmdTrace : List String

/-- Mirrors executeDeploy (part_001 lines 1124-1162): run the provider
deploy, then invoke sendAlert exactly once with a status payload that is
Failed with the error text on failure and Success otherwise; the alert
outcome is only logged and the deploy outcome is returned as is. -/
def executeDeploy (ssh : SSHEnv) (al : AlertEnv) (deploy : DeployConfig)
    (version : String) : DeployOutcome :=
  let step : Except String Unit × List String :=
    if deploy.Provider = "ssh" then executeSSHDeploy ssh deploy.ToSSHDeployConfig
    else (.error ("unsupported deploy provider: " ++ deploy.Provider), [])
  match step.1 with
  | .error e =>
    let d : AlertTemplateData :=
      { AppName := deploy.Name, Version := version, Status := "Failed", Error := e }
    let s := sendAlert al deploy.Alerts.URLs d
    { result := .error e, alertCalls := [d], dispatched := s.2, cmdTrace := step.2 }
  | .ok () =>
    let d : AlertTemplateData :=
      { AppName := deploy.Name, Version := version, Status := "Success", Error := "" }
    let s := sendAlert al deploy.Alerts.URLs d
    { result := .ok (), alertCalls := [d], dispatched := s.2, cmdTrace := step.2 }

/-- C1: for a deploy spec with commands A, B and C where A succeeds and B
exits with an error, the executed command trace is exactly A then B, so
the third command never runs; the deploy returns the Failed outcome whose
error text wraps the error from B; the notification dispatcher is invoked
exactly once, with status Failed and that error text; and when alert URLs
are configured and the sender is created, exactly one message is handed
to the notification collaborator. -/
theorem deploy_failure_short_circuits
    (n srv usr key v A B C outA e : String) (urls : List String)
    (ssh : SSHEnv) (al : AlertEnv)
    (hn : n ≠ "") (hsrv : srv ≠ "") (husr : usr ≠ "") (hkey : key ≠ "")
    (hA : ssh.run A = .ok outA) (hB : ssh.run B = .error e)
    (hconn : ssh.connectInsecure usr srv = .ok ())
    (hkeyload : ssh.rawKey key = .ok ())
    (out : DeployOutcome) (msg : String)
    (hout : out = executeDeploy ssh al
      { Name := n, Provider := "ssh", Server := srv, User := usr,
        KeyPath := "", KeyRaw := key, InsecureIgnoreHostKey := true,
        Commands := [A, B, C], Alerts := { URLs := urls } } v)
    (hmsg : msg = "command \x27" ++ B ++ "\x27 failed: " ++ e) :
    out.result = .error msg ∧
    out.cmdTrace = [A, B] ∧
    out.alertCalls = [{ AppName := n, Version := v, Status := "Failed", Error := msg }] ∧
    (urls ≠ [] → al.createSender urls = .ok () →
      out.dispatched =
        [renderAlertMessage
          { AppName := n, Version := v, Status := "Failed", Error := msg }]) := by
  subst hout hmsg
  have hstep : executeSSHDeploy ssh
      (DeployConfig.ToSSHDeployConfig
        { Name := n, Provider := "ssh", Server := srv, User := usr,
          KeyPath := "", KeyRaw := key, InsecureIgnoreHostKey := true,
          Commands := [A, B, C], Alerts := { URLs := urls } }) =
      (.error ("command \x27" ++ B ++ "\x27 failed: " ++ e), [A, B]) := by
    simp [DeployConfig.ToSSHDeployConfig, executeSSHDeploy,
      SSHDeployConfig.Validate, runCommands, hA, hB, hkeyload, hconn,
      hn, hsrv, husr, hkey]
  refine ⟨?_, ?_, ?_, ?_⟩
  · simp [executeDeploy, hstep]
  · simp [executeDeploy, hstep]
  · simp [executeDeploy, hstep]
  · intro hurls hsender
    simp [executeDeploy, hstep, sendAlert, hurls, hsender]

/-- A concrete remote shell for the deploy failure witness: the restart
command exits non-zero, every other call succeeds. -/
def c1SSHEnv : SSHEnv :=
  { checkKnownHost := fun _ => .ok (), rawKey := fun _ => .ok (),
    keyFromPath := fun _ => .ok (), connect := fun _ _ => .ok (),
    connectInsecure := fun _ _ => .ok (),
    run := fun c => if c = "restart" then .error "exit status 1" else .ok "done" }

/-- A concrete notification collaborator for the deploy failure witness. -/
def c1AlertEnv : AlertEnv :=
  { createSender := fun _ => .ok (), send := fun _ _ => [] }

/-- The deploy spec of the deploy failure witness: commands pull, restart,
verify, where restart fails. -/
def c1Deploy : DeployConfig :=
  { Name := "web", Provider := "ssh", Server := "host", User := "root",
    KeyPath := "", KeyRaw := "KEY", InsecureIgnoreHostKey := true,
    Commands := ["pull", "restart", "verify"], Alerts := { URLs := ["tg://x"] } }

/-- Witness for deploy_failure_short_circuits at the concrete deploy. -/
theorem deploy_failure_short_circuits_witness :
    (executeDeploy c1SSHEnv c1AlertEnv c1Deploy "v1").result =
        .error "command \x27restart\x27 failed: exit status 1" ∧
    (executeDeploy c1SSHEnv c1AlertEnv c1Deploy "v1").cmdTrace = ["pull", "restart"] ∧
    (executeDeploy c1SSHEnv c1AlertEnv c1Deploy "v1").alertCalls =
      [{ AppName := "web", Version := "v1", Status := "Failed",
         Error := "command \x27restart\x27 failed: exit status 1" }] ∧
    (executeDeploy c1SSHEnv c1AlertEnv c1Deploy "v1").dispatched =
      [renderAlertMessage
        { AppName := "web", Version := "v1", Status := "Failed",
          Error := "command \x27restart\x27 failed: exit status 1" }] := by
  have h := deploy_failure_short_circuits "web" "host" "root" "KEY" "v1"
    "pull" "restart" "verify" "done" "exit status 1" ["tg://x"] c1SSHEnv c1AlertEnv
    (by decide) (by decide) (by decide) (by decide) rfl rfl rfl rfl
    (executeDeploy c1SSHEnv c1AlertEnv c1Deploy "v1")
    "command \x27restart\x27 failed: exit status 1" rfl rfl
  exact ⟨h.1, h.2.1, h.2.2.1, h.2.2.2 (by decide) rfl⟩

/-- C5: the notification machinery never changes the already-determined
deploy outcome: executeDeploy returns the same result under any two alert
collaborators, and that result is a success exactly when the provider
deploy itself succeeded; in particular a failed deploy still returns its
failure after the notification attempt. -/
theorem notification_never_changes_outcome (ssh : SSHEnv) (al al2 : AlertEnv)
    (deploy : DeployConfig) (v : String) :
    (executeDeploy ssh al deploy v).result = (executeDeploy ssh al2 deploy v).result ∧
    ((executeDeploy ssh al deploy v).result = .ok () ↔
      deploy.Provider = "ssh" ∧
        (executeSSHDeploy ssh deploy.ToSSHDeployConfig).1 = .ok ()) := by
  unfold executeDeploy
  by_cases hp : deploy.Provider = "ssh"
  · simp only [hp, if_pos]
    rcases h : (executeSSHDeploy ssh deploy.ToSSHDeployConfig).1 with e | u
    · simp [h]
    · cases u
      simp [h]
  · simp [hp]

/-- Mirrors BlobConfig (part_001 lines 82-96). -/
structure BlobConfig where
  Provider : String
  Name : String
  Bucket : String
  Region : String
  Endpoint : String
  Server : String
  User : String
  KeyPath : String
  InsecureIgnoreHostKey : Bool
  Directory : String
deriving Repr, DecidableEq

/-- Mirrors S3Config (part_001 lines 170-175). -/
structure S3Config where
  Bucket : String
  Directory : String
  Region : String
  Endpoint : String
deriving Repr, DecidableEq

/-- Mirrors SSHPublishConfig (part_001 lines 177-185). -/
structure SSHPublishConfig where
  Name : String
  Server : String
  User : String
  KeyPath : String
  KeyRaw : String
  InsecureIgnoreHostKey : Bool
  Directory : String
deriving Repr, DecidableEq

/-- Mirrors BlobConfig.ToS3Config (part_001 lines 126-136). -/
def BlobConfig.ToS3Config (c : BlobConfig) : Option S3Config :=
  if c.Provider ≠ "s3" then none
  else some { Bucket := c.Bucket, Directory := c.Directory,
              Region := c.Region, Endpoint := c.Endpoint }

/-- Mirrors BlobConfig.ToSSHConfig (part_001 lines 139-151); the KeyRaw
field of the result is left empty, as in the Go struct literal. -/
def BlobConfig.ToSSHConfig (c : BlobConfig) : Option SSHPublishConfig :=
  if c.Provider ≠ "ssh" then none
  else some { Name := c.Name, Server := c.Server, User := c.User,
              KeyPath := c.KeyPath, KeyRaw := "",
              InsecureIgnoreHostKey := c.InsecureIgnoreHostKey,
              Directory := c.Directory }

/-- Mirrors HooksConfig (part_001 lines 53-55). -/
structure HooksConfig where
  Hooks : List String
deriving Repr, DecidableEq

/-- Mirrors ArchiveConfig (part_001 lines 69-72).  The name template text
is modelled in parsed form: none is the empty template string, some t a
syntactically valid template text parsing to t. -/
structure ArchiveConfig where
  Formats : List String
  NameTemplate : Option (List TmplNode)
deriving Repr, DecidableEq

/-- Mirrors Config (part_001 lines 42-51). -/
structure Config where
  Version : Nat
  OutDir : String
  Before : HooksConfig
  After : HooksConfig
  Builds : List BuildConfig
  Archives : List ArchiveConfig
  Blobs : List BlobConfig
  Deploys : List DeployConfig

/-- Oracles for the two publish backends: each models the whole of
publishToS3 or publishToSSH, the only places where network operations
(connection, bucket check or creation, upload) happen. -/
structure PublishEnv where
  s3 : Option S3Config → Except String Unit
  sshPub : Option SSHPublishConfig → Except String Unit

/-- The per-blob dispatch loop of publishArtifacts (part_001 lines
644-660): the provider switch runs the matching backend, an unknown
provider is logged and skipped.  The second component is the trace of
backend invocations as provider and blob name pairs; it is empty exactly
when no network operation was attempted. -/
def processBlobs (env : PublishEnv) : List BlobConfig → Except String Unit × List (String × String)
  | [] => (.ok (), [])
  | b :: rest =>
    if b.Provider = "s3" then
      match env.s3 b.ToS3Config with
      | .error e => (.error ("s3 publish error: " ++ e), [("s3", b.Name)])
      | .ok () =>
        let r := processBlobs env rest
        (r.1, ("s3", b.Name) :: r.2)
    else if b.Provider = "ssh" then
      match env.sshPub b.ToSSHConfig with
      | .error e => (.error ("ssh publish error: " ++ e), [("ssh", b.Name)])
      | .ok () =>
        let r := processBlobs env rest
        (r.1, ("ssh", b.Name) :: r.2)
    else
      processBlobs env rest

/-- Mirrors publishArtifacts (part_001 lines 610-662): select the blobs by
name when one is given, failing with the not-found error when nothing
matches, then process the selection in order. -/
def publishArtifacts (cfg : Config) (publishName : String) (env : PublishEnv) :
    Except String Unit × List (String × String) :=
  let blobs :=
    if publishName ≠ "" then cfg.Blobs.filter (fun b => b.Name = publishName)
    else cfg.Blobs
  if publishName ≠ "" ∧ blobs = [] then
    (.error ("publish configuration \x27" ++ publishName ++ "\x27 not found"), [])
  else processBlobs env blobs

/-- The unqualified deploy loop of deployArtifacts (part_001 lines
1070-1075): every spec in order, aborting at the first failure. -/
def runAllDeploys (ssh : SSHEnv) (al : AlertEnv) (version : String) :
    List DeployConfig → Except String Unit
  | [] => .ok ()
  | d :: rest =>
    match (executeDeploy ssh al d version).result with
    | .error e => .error ("deploy \x27" ++ d.Name ++ "\x27 failed: " ++ e)
    | .ok () => runAllDeploys ssh al version rest

/-- Mirrors deployArtifacts (part_001 lines 1054-1078): an empty deploy
list is an error; a supplied name runs the first matching spec or fails
with the not-found error; otherwise every spec runs in order. -/
def deployArtifacts (cfg : Config) (deployName : String) (ssh : SSHEnv)
    (al : AlertEnv) (version : String) : Except String Unit :=
  if cfg.Deploys = [] then .error "no deploy configurations found"
  else if deployName ≠ "" then
    match cfg.Deploys.find? (fun d => d.Name == deployName) with
    | some d => (executeDeploy ssh al d version).result
    | none => .error ("deploy configuration \x27" ++ deployName ++ "\x27 not found")
  else
    runAllDeploys ssh al version cfg.Deploys

/-- C9: when a publish name is supplied and no configured sink carries
that name, publishArtifacts fails with the not-found error and the
backend invocation trace is empty, so no connection, upload or bucket
operation is attempted. -/
theorem publish_unknown_name (cfg : Config) (name : String) (env : PublishEnv)
    (hname : name ≠ "") (hmiss : ∀ b ∈ cfg.Blobs, b.Name ≠ name) :
    publishArtifacts cfg name env =
      (.error ("publish configuration \x27" ++ name ++ "\x27 not found"), []) := by
  have hfilter : cfg.Blobs.filter (fun b => b.Name = name) = [] := by
    rw [List.filter_eq_nil_iff]
    intro b hb
    simpa using hmiss b hb
  simp [publishArtifacts, hname, hfilter]

/-- A trivially succeeding pair of publish backends for witnesses. -/
def trivialPublishEnv : PublishEnv :=
  { s3 := fun _ => .ok (), sshPub := fun _ => .ok () }

/-- A configuration with a single s3 sink named prod and nothing else. -/
def c9Config : Config :=
  { Version := 1, OutDir := "dist", Before := { Hooks := [] },
    After := { Hooks := [] }, Builds := [], Archives := [],
    Blobs := [{ Provider := "s3", Name := "prod", Bucket := "b", Region := "r",
                Endpoint := "https://e", Server := "", User := "", KeyPath := "",
                InsecureIgnoreHostKey := false, Directory := "d" }],
    Deploys := [] }

/-- Witness for publish_unknown_name: asking for the sink unknown among
the single sink prod. -/
theorem publish_unknown_name_witness :
    publishArtifacts c9Config "unknown" trivialPublishEnv =
      (.error ("publish configuration \x27" ++ "unknown" ++ "\x27 not found"), []) :=
  publish_unknown_name c9Config "unknown" trivialPublishEnv (by decide) (by decide)

/-- C10: with zero deploy specs configured, deployArtifacts fails with the
no-deploy-configurations error, for a named invocation and for the
unqualified one alike; by contrast publishArtifacts over the same
configuration with zero sinks and no name selector succeeds as a no-op
with no backend invocation. -/
theorem deploy_empty_config_fails (cfg : Config) (name : String) (ssh : SSHEnv)
    (al : AlertEnv) (v : String) (env : PublishEnv)
    (hdep : cfg.Deploys = []) (hblobs : cfg.Blobs = []) :
    deployArtifacts cfg name ssh al v = .error "no deploy configurations found" ∧
    publishArtifacts cfg "" env = (.ok (), []) := by
  constructor
  · simp [deployArtifacts, hdep]
  · simp [publishArtifacts, hblobs, processBlobs]

/-- An always-succeeding remote shell for witnesses. -/
def trivialSSHEnv : SSHEnv :=
  { checkKnownHost := fun _ => .ok (), rawKey := fun _ => .ok (),
    keyFromPath := fun _ => .ok (), connect := fun _ _ => .ok (),
    connectInsecure := fun _ _ => .ok (), run := fun _ => .ok "" }

/-- An always-succeeding notification collaborator for witnesses. -/
def trivialAlertEnv : AlertEnv :=
  { createSender := fun _ => .ok (), send := fun _ _ => [] }

/-- The empty configuration for the C10 witness. -/
def c10Config : Config :=
  { Version := 1, OutDir := "dist", Before := { Hooks := [] },
    After := { Hooks := [] }, Builds := [], Archives := [],
    Blobs := [], Deploys := [] }

/-- Witness for deploy_empty_config_fails: the empty configuration under
a named invocation. -/
theorem deploy_empty_config_fails_witness :
    deployArtifacts c10Config "prod" trivialSSHEnv trivialAlertEnv "v1" =
        .error "no deploy configurations found" ∧
    publishArtifacts c10Config "" trivialPublishEnv = (.ok (), []) :=
  deploy_empty_config_fails c10Config "prod" trivialSSHEnv trivialAlertEnv "v1"
    trivialPublishEnv rfl rfl

/-- One scheduled archive creation: the source entry path and the archive
path handed to createTarGz. -/
structure ArchiveTask where
  sourcePath : String
  archivePath : String
deriving Repr, DecidableEq

/-- Oracles for the archive stage externals: tar models one createTarGz
call on a source and archive path; remove models one best-effort removal
of a source entry, returning whether it succeeded. -/
structure ArchiveEnv where
  tar : String → String → Except String Unit
  remove : String → Bool

/-- The archive name for one entry under one ArchiveConfig (part_001
lines 880-894): the raw entry name unless a name template is configured,
in which case the template renders over the parsed fields and a render
failure aborts the stage. -/
def archiveNameFor (fileName : String) (d : ArchiveTemplateData)
    (a : ArchiveConfig) : Except String String :=
  match a.NameTemplate with
  | none => .ok fileName
  | some t =>
    match renderTemplate (archiveContext d) t with
    | .error e => .error ("failed to execute archive name template: " ++ e)
    | .ok s => .ok s

/-- The inner format loop (part_001 lines 896-917): schedule one tar.gz
task per tar.gz format and mark the source entry archived; any other
format is logged and skipped.  Returns the scheduled tasks and whether
the entry was marked. -/
def scheduleFormats (artifactsDir fileName archiveName : String) :
    List String → List ArchiveTask × Bool
  | [] => ([], false)
  | fmt :: rest =>
    let r := scheduleFormats artifactsDir fileName archiveName rest
    if fmt = "tar.gz" then
      ({ sourcePath := artifactsDir ++ "/" ++ fileName,
         archivePath := artifactsDir ++ "/" ++ (archiveName ++ "." ++ fmt) } :: r.1,
       true)
    else r

/-- The per-entry archive configuration loop (part_001 lines 878-918):
resolve the archive name for each configuration, abort on a template
error, and collect the scheduled tasks, marking the entry when any
configuration schedules a tar.gz task. -/
def scheduleArchives (artifactsDir fileName : String) (d : ArchiveTemplateData) :
    List ArchiveConfig → Except String (List ArchiveTask × Bool)
  | [] => .ok ([], false)
  | a :: rest =>
    match archiveNameFor fileName d a with
    | .error e => .error e
    | .ok name =>
      let r1 := scheduleFormats artifactsDir fileName name a.Formats
      match scheduleArchives artifactsDir fileName d rest with
      | .error e => .error e
      | .ok r2 => .ok (r1.1 ++ r2.1, r1.2 || r2.2)

/-- The work of one directory entry (part_001 lines 857-919): an entry
name with fewer than four underscore fields is skipped; otherwise its
archive work is scheduled over every configuration. -/
def scheduleEntry (artifactsDir : String) (archives : List ArchiveConfig)
    (f : String) : Except String (List ArchiveTask × Bool) :=
  match parseArchiveEntry f with
  | none => .ok ([], false)
  | some d => scheduleArchives artifactsDir f d archives

/-- The outer entry loop of createArchives (part_001 lines 857-919).
Returns all scheduled tasks and the list of marked (to be deleted) entry
names, in entry order. -/
def scheduleAll (artifactsDir : String) (archives : List ArchiveConfig) :
    List String → Except String (List ArchiveTask × List String)
  | [] => .ok ([], [])
  | f :: rest =>
    match scheduleEntry artifactsDir archives f with
    | .error e => .error e
    | .ok r1 =>
      match scheduleAll artifactsDir archives rest with
      | .error e => .error e
      | .ok r2 => .ok (r1.1 ++ r2.1, (if r1.2 then [f] else []) ++ r2.2)

/-- The archive workers (part_001 lines 902-923): each scheduled task runs
createTarGz; the first failure is the error the wait step reports. -/
def runArchiveTasks (tar : String → String → Except String Unit) :
    List ArchiveTask → Except String Unit
  | [] => .ok ()
  | t :: rest =>
    match tar t.sourcePath t.archivePath with
    | .error e => .error ("failed to create tar.gz archive: " ++ e)
    | .ok () => runArchiveTasks tar rest

/-- Mirrors createArchives (part_001 lines 836-945) as a two-phase
sequential model: no-op without archive configurations; otherwise
schedule all work over the directory entries, run every scheduled task,
and only when the wait reports no error sweep the marked source entries,
attempting each removal and ignoring its outcome (removal failures are
only logged).  Returns the stage outcome and the list of source entries
whose removal was attempted; a scheduling or creation error returns
before any removal is attempted. -/
def createArchives (cfg : Config) (artifactsDir : String) (entries : List String)
    (env : ArchiveEnv) : Except String Unit × List String :=
  if cfg.Archives = [] then (.ok (), [])
  else
    match scheduleAll artifactsDir cfg.Archives entries with
    | .error e => (.error e, [])
    | .ok (tasks, marked) =>
      match runArchiveTasks env.tar tasks with
      | .error e => (.error ("error creating archives: " ++ e), [])
      | .ok () =>
        let sweep := entries.filter (fun f => marked.contains f)
        let _ := sweep.map env.remove
        (.ok (), sweep)

/-- Whether createArchives marks an entry for archiving and deletion: the
name parses to at least four fields and some configuration lists the
tar.gz format. -/
def markedEntry (archives : List ArchiveConfig) (f : String) : Bool :=
  !(parseArchiveEntry f).isNone && archives.any (fun a => a.Formats.contains "tar.gz")

/-- The format loop marks an entry exactly when a tar.gz format is
listed. -/
theorem scheduleFormats_marked (dir f name : String) (formats : List String) :
    (scheduleFormats dir f name formats).2 = formats.contains "tar.gz" := by
  induction formats with
  | nil => rfl
  | cons fmt rest ih =>
    by_cases h : fmt = "tar.gz"
    · subst h
      simp [scheduleFormats]
    · have hne : "tar.gz" ≠ fmt := fun hh => h hh.symm
      simp [scheduleFormats, h, ih, hne]

/-- A successful per-entry schedule marks the entry exactly when some
configuration lists the tar.gz format. -/
theorem scheduleArchives_marked (dir f : String) (d : ArchiveTemplateData)
    (archives : List ArchiveConfig) (r : List ArchiveTask × Bool)
    (h : scheduleArchives dir f d archives = .ok r) :
    r.2 = archives.any (fun a => a.Formats.contains "tar.gz") := by
  induction archives generalizing r with
  | nil =>
    simp only [scheduleArchives, Except.ok.injEq] at h
    rw [← h]
    simp
  | cons a rest ih =>
    unfold scheduleArchives at h
    cases hn : archiveNameFor f d a with
    | error e => rw [hn] at h; exact absurd h (by simp)
    | ok name =>
      rw [hn] at h
      cases hr : scheduleArchives dir f d rest with
      | error e => rw [hr] at h; exact absurd h (by simp)
      | ok r2 =>
        rw [hr] at h
        simp only [Except.ok.injEq] at h
        rw [← h]
        simp [List.any_cons, scheduleFormats_marked, ih r2 hr]

/-- A successful per-entry schedule marks the entry exactly when the
markedEntry predicate holds. -/
theorem scheduleEntry_marked (dir : String) (archives : List ArchiveConfig)
    (f : String) (r : List ArchiveTask × Bool)
    (h : scheduleEntry dir archives f = .ok r) :
    r.2 = markedEntry archives f := by
  unfold scheduleEntry at h
  cases hp : parseArchiveEntry f with
  | none =>
    rw [hp] at h
    simp only [Except.ok.injEq] at h
    rw [← h]
    simp [markedEntry, hp]
  | some d =>
    rw [hp] at h
    rw [scheduleArchives_marked dir f d archives r h]
    simp [markedEntry, hp]

/-- A successful schedule over the entries marks exactly the entries that
parse and meet a tar.gz format, in order. -/
theorem scheduleAll_marked (dir : String) (archives : List ArchiveConfig)
    (entries : List String) (r : List ArchiveTask × List String)
    (h : scheduleAll dir archives entries = .ok r) :
    r.2 = entries.filter (markedEntry archives) := by
  induction entries generalizing r with
  | nil =>
    simp only [scheduleAll, Except.ok.injEq] at h
    rw [← h]
    simp
  | cons f rest ih =>
    unfold scheduleAll at h
    cases hq : scheduleEntry dir archives f with
    | error e => rw [hq] at h; exact absurd h (by simp)
    | ok r1 =>
      rw [hq] at h
      cases hr : scheduleAll dir archives rest with
      | error e => rw [hr] at h; exact absurd h (by simp)
      | ok r2 =>
        rw [hr] at h
        simp only [Except.ok.injEq] at h
        rw [← h]
        have hm := scheduleEntry_marked dir archives f r1 hq
        rcases hb : r1.2 with _ | _
        · simp [List.filter_cons, ← hm, ih r2 hr, hb]
        · simp [List.filter_cons, ← hm, ih r2 hr, hb]

/-- C8: in the archive stage, a scheduling or archive-creation error makes
the stage return that error with no source entry removal attempted; when
every archive creation succeeds the stage succeeds and attempts removal
of exactly the source entries that were archived (those parsing to at
least four fields under a configuration listing tar.gz); and the removal
outcomes never influence the stage result, so removal failures are not
fatal.  Removal happens only in the sweep after the creation phase of the
model, which mirrors the wait-then-sweep order of the source. -/
theorem archive_cleanup_two_phase (cfg : Config) (dir : String)
    (entries : List String) (env : ArchiveEnv) :
    (∀ e, (createArchives cfg dir entries env).1 = .error e →
        (createArchives cfg dir entries env).2 = []) ∧
    ((createArchives cfg dir entries env).1 = .ok () →
        (createArchives cfg dir entries env).2 =
          entries.filter (markedEntry cfg.Archives)) ∧
    (∀ rem : String → Bool,
      (createArchives cfg dir entries { env with remove := rem }).1 =
        (createArchives cfg dir entries env).1) := by
  by_cases harch : cfg.Archives = []
  · refine ⟨?_, ?_, ?_⟩
    · intro e he
      simp [createArchives, harch] at he
    · intro _
      simp [createArchives, harch, markedEntry]
    · intro rem
      simp [createArchives, harch]
  · cases hs : scheduleAll dir cfg.Archives entries with
    | error e =>
      refine ⟨?_, ?_, ?_⟩
      · intro e2 _
        simp [createArchives, harch, hs]
      · intro hok
        simp [createArchives, harch, hs] at hok
      · intro rem
        simp [createArchives, harch, hs]
    | ok r =>
      obtain ⟨tasks, marked⟩ := r
      cases ht : runArchiveTasks env.tar tasks with
      | error e =>
        refine ⟨?_, ?_, ?_⟩
        · intro e2 _
          simp [createArchives, harch, hs, ht]
        · intro hok
          simp [createArchives, harch, hs, ht] at hok
        · intro rem
          simp [createArchives, harch, hs, ht]
      | ok u =>
        cases u
        have hmarked : marked = entries.filter (markedEntry cfg.Archives) :=
          scheduleAll_marked dir cfg.Archives entries (tasks, marked) hs
        have hfilter : entries.filter (fun f => decide (f ∈ marked)) =
            entries.filter (markedEntry cfg.Archives) := by
          apply List.filter_congr
          intro f hf
          by_cases hm : markedEntry cfg.Archives f = true
          · have : f ∈ marked := by
              rw [hmarked]
              exact List.mem_filter.mpr ⟨hf, hm⟩
            simp [this, hm]
          · have : f ∉ marked := by
              rw [hmarked]
              intro hmem
              exact hm (List.mem_filter.mp hmem).2
            simp [this, Bool.eq_false_iff.mpr hm]
        refine ⟨?_, ?_, ?_⟩
        · intro e2 he2
          simp [createArchives, harch, hs, ht] at he2
        · intro _
          simp only [createArchives, harch, hs, ht]
          simp
          exact hfilter
        · intro rem
          simp [createArchives, harch, hs, ht]

/-- Witness for archive_cleanup_two_phase: one matching entry, one
skipped entry, a tar.gz configuration and a removal that fails; the stage
succeeds and sweeps exactly the matching entry. -/
theorem archive_cleanup_two_phase_witness :
    (createArchives
        { Version := 1, OutDir := "dist", Before := { Hooks := [] },
          After := { Hooks := [] }, Builds := [],
          Archives := [{ Formats := ["tar.gz"], NameTemplate := none }],
          Blobs := [], Deploys := [] } "dist"
        ["myapp_v1_linux_amd64", "readme.txt"]
        { tar := fun _ _ => .ok (), remove := fun _ => false }).1 = .ok () ∧
    (createArchives
        { Version := 1, OutDir := "dist", Before := { Hooks := [] },
          After := { Hooks := [] }, Builds := [],
          Archives := [{ Formats := ["tar.gz"], NameTemplate := none }],
          Blobs := [], Deploys := [] } "dist"
        ["myapp_v1_linux_amd64", "readme.txt"]
        { tar := fun _ _ => .ok (), remove := fun _ => false }).2 =
      ["myapp_v1_linux_amd64"] := by
  have h := archive_cleanup_two_phase
    { Version := 1, OutDir := "dist", Before := { Hooks := [] },
      After := { Hooks := [] }, Builds := [],
      Archives := [{ Formats := ["tar.gz"], NameTemplate := none }],
      Blobs := [], Deploys := [] } "dist"
    ["myapp_v1_linux_amd64", "readme.txt"]
    { tar := fun _ _ => .ok (), remove := fun _ => false }
  refine ⟨rfl, ?_⟩
  rw [h.2.1 rfl]
  rfl

/-- The known-hosts trust store: whether the file exists and its recorded
content. -/
structure KnownHostsState where
  fileExists : Bool
  content : String
deriving Repr, DecidableEq

/-- Oracles for the filesystem calls and the ssh-keyscan probe of
checkKnonwnHost; keyscan returns the public key material the probed host
presents. -/
structure KnownHostsEnv where
  mkdirSshDir : Except String Unit
  writeEmptyFile : Except String Unit
  keyscan : String → Except String String
  openAppend : Except String Unit
  appendWrite : Except String Unit

/-- Mirrors checkKnonwnHost (part_001 lines 1229-1268) over an explicit
trust-store state.  The Bool of the result records whether the host was
probed with ssh-keyscan.  The function acts only when the known_hosts
file does not exist: it creates the .ssh directory and an empty file,
probes the server and appends the probe output; when the file exists it
returns immediately, whatever the file records. -/
def checkKnonwnHost (env : KnownHostsEnv) (server : String)
    (st : KnownHostsState) : Except String (KnownHostsState × Bool) :=
  if st.fileExists = false then
    match env.mkdirSshDir with
    | .error e => .error ("failed to create .ssh directory: " ++ e)
    | .ok () =>
      match env.writeEmptyFile with
      | .error e => .error ("failed to create known_hosts file: " ++ e)
      | .ok () =>
        match env.keyscan server with
        | .error e => .error ("ssh-keyscan failed: " ++ e)
        | .ok output =>
          match env.openAppend with
          | .error e => .error ("failed to open known_hosts file: " ++ e)
          | .ok () =>
            match env.appendWrite with
            | .error e => .error ("failed to write to known_hosts file: " ++ e)
            | .ok () => .ok ({ fileExists := true, content := output }, true)
  else .ok (st, false)

/-- C2 counterexample: the trust-store file exists but is empty, so the
target host has no recorded key, yet checkKnonwnHost neither probes the
host nor appends anything: it returns the state unchanged with the probe
flag false, although the probe would have produced key material. -/
theorem trust_store_probe_counterexample :
    checkKnonwnHost
      { mkdirSshDir := .ok (), writeEmptyFile := .ok (),
        keyscan := fun _ => .ok "example.com ssh-ed25519 AAAA", openAppend := .ok (),
        appendWrite := .ok () }
      "example.com" { fileExists := true, content := "" } =
      .ok ({ fileExists := true, content := "" }, false) := rfl

/-- C2 amended: the probe-and-append behaviour is keyed on the existence
of the trust-store file, not on whether the host has a recorded key: when
the file is absent and the filesystem calls succeed, the directory and an
empty file are created, the host is probed and the probe output becomes
the stored content; when the file exists, nothing is probed or written
even if the host has no recorded key. -/
theorem trust_store_bootstrap (env : KnownHostsEnv) (server out : String)
    (st : KnownHostsState)
    (hmk : env.mkdirSshDir = .ok ()) (hwr : env.writeEmptyFile = .ok ())
    (hscan : env.keyscan server = .ok out) (hop : env.openAppend = .ok ())
    (hap : env.appendWrite = .ok ()) :
    (st.fileExists = false →
      checkKnonwnHost env server st = .ok ({ fileExists := true, content := out }, true)) ∧
    (st.fileExists = true →
      checkKnonwnHost env server st = .ok (st, false)) := by
  constructor
  · intro hex
    simp [checkKnonwnHost, hex, hmk, hwr, hscan, hop, hap]
  · intro hex
    simp [checkKnonwnHost, hex]

/-- Witness for trust_store_bootstrap at an absent trust-store file. -/
theorem trust_store_bootstrap_witness :
    checkKnonwnHost
      { mkdirSshDir := .ok (), writeEmptyFile := .ok (),
        keyscan := fun _ => .ok "h ssh-rsa KEY", openAppend := .ok (),
        appendWrite := .ok () }
      "h" { fileExists := false, content := "" } =
      .ok ({ fileExists := true, content := "h ssh-rsa KEY" }, true) :=
  (trust_store_bootstrap
    { mkdirSshDir := .ok (), writeEmptyFile := .ok (),
      keyscan := fun _ => .ok "h ssh-rsa KEY", openAppend := .ok (),
      appendWrite := .ok () }
    "h" "h ssh-rsa KEY" { fileExists := false, content := "" }
    rfl rfl rfl rfl rfl).1 rfl

end Gcx
